import Mathlib

/-!
# Verification of the proxy server core (`src/proxyServer.ts`, hand-rolled variant)

This development embeds the `ProxyServer` class of the VS Code proxy extension.
The repository contains two request-forwarding variants; the spec (and every
claim) follows the hand-rolled one built on `http.createServer` + `http.request`
(the variant whose `rotateToken` sanitizes the token and whose request handler
builds an explicit `options` object), so that is the variant embedded here.

Modelling conventions:
* JavaScript strings are Lean `String`; the JS `.trim()` (which strips `\s`)
  is `jsTrim`, and the regex replacement `.replace(/[\r\n\s]+/g, "")` is
  `stripJsWs`, both defined over the ASCII whitespace class.
* `vscode.workspace.getConfiguration` reads are a `WorkspaceConfig` record of
  `Option` fields (`none` = key unset); the JS `||`-defaulting of the code is
  reproduced exactly (so `0` and `""` also fall back to the default).
* `execSync` is an `ExecResult`: `success output` (the raw stdout) or
  `failure` (non-zero exit or timeout, both of which throw in the source and
  land in the same `catch` block).
* Node lowercases inbound request header names and response header names, and
  `ClientRequest.setHeader` matches names case-insensitively; headers are an
  association list with case-insensitive operations (`hSet`, `hDel`, `hGet`).
* The rotation timer firing is modelled by explicitly invoking `rotateToken`
  with the configuration value live at that moment, since `rotateToken`
  re-reads `tokenCommand` from the workspace configuration on every call.
-/

namespace Proxy

/-- ASCII whitespace class of the JS regex `\s` (space, tab, LF, CR, VT, FF). -/
def isJsWs (c : Char) : Bool :=
  c = ' ' || c = '\t' || c = '\n' || c = '\r' || c = '\x0b' || c = '\x0c'

/-- JS `String.prototype.trim()`: drop leading and trailing whitespace. -/
def jsTrim (s : String) : String :=
  String.mk (((s.data.dropWhile isJsWs).reverse.dropWhile isJsWs).reverse)

/-- The replacement `.replace(/[\r\n\s]+/g, "")`: remove every whitespace char. -/
def stripJsWs (s : String) : String :=
  String.mk (s.data.filter (fun c => !isJsWs c))

/-- `raw.trim().replace(/[\r\n\s]+/g, "")`, the sanitization applied both in
`rotateToken` (to the command output) and in the request handler (to the
stored token before attaching it). -/
def sanitizeToken (s : String) : String :=
  stripJsWs (jsTrim s)

/-! ## Case-insensitive header maps -/

/-- Headers as an association list of (name, value). -/
abbrev Headers := List (String × String)

/-- ASCII lowercasing of a header-name character. -/
def lowerChar (c : Char) : Char :=
  if 'A' ≤ c ∧ c ≤ 'Z' then Char.ofNat (c.toNat + 32) else c

/-- A header name lowercased, as Node normalizes names (header names are
ASCII). -/
def lowerName (s : String) : List Char := s.data.map lowerChar

/-- Case-insensitive header-name equality. -/
def lowerEq (a b : String) : Bool := lowerName a == lowerName b

/-- Set a header: replace the value of the entry whose name matches
case-insensitively, else append. This is the net effect of assigning
`options.headers[k] = v` followed by Node `ClientRequest` header
normalization (`setHeader` matches names case-insensitively, and a JS
object holds at most one property per name). -/
def hSet : Headers → String → String → Headers
  | [], k, v => [(k, v)]
  | p :: ps, k, v => if lowerEq p.1 k then (p.1, v) :: ps else p :: hSet ps k v

/-- Delete a header (`delete options.headers[k]` on Node-normalized names). -/
def hDel (h : Headers) (k : String) : Headers :=
  h.filter (fun p => !lowerEq p.1 k)

/-- Look up a header value case-insensitively. -/
def hGet (h : Headers) (k : String) : Option String :=
  (h.find? (fun p => lowerEq p.1 k)).map (·.2)

/-- Number of entries whose name matches `k` case-insensitively. -/
def hCount (h : Headers) (k : String) : Nat :=
  (h.filter (fun p => lowerEq p.1 k)).length

/-! ## Configuration and server state -/

/-- The `proxyExtension` workspace configuration as read by `start` and
`rotateToken`; `none` models an unset key (`config.get` returning
`undefined`). -/
structure WorkspaceConfig where
  destination : Option String
  tokenCommand : Option String
  proxyPort : Option Nat
  tokenRotationMinutes : Option Nat
deriving DecidableEq, Repr

/-- JS `x || d` defaulting on numbers: `undefined` and `0` both yield `d`. -/
def jsOrNat (x : Option Nat) (d : Nat) : Nat :=
  match x with
  | none => d
  | some 0 => d
  | some n => n

/-- Outcome of `execSync(tokenCommand, ...)`: the raw stdout on success, or
`failure` when the command exits non-zero or times out (both throw). -/
inductive ExecResult where
  | success (output : String)
  | failure
deriving DecidableEq, Repr

/-- What a successful `start` captures for the lifetime of the run: the
`destination` constant closed over by the request handler, the port passed to
`listen`, and the interval passed to `setInterval`. -/
structure RunHandle where
  destination : String
  proxyPort : Nat
  rotationMinutes : Nat
deriving DecidableEq, Repr

/-- The mutable fields of the `ProxyServer` class. `server` is the listener
(`null` / bound), `proxy` the never-assigned `http-proxy` instance of this
variant, `tokenRotationInterval` whether the recurring timer is set. -/
structure ProxyServer where
  server : Option RunHandle
  proxy : Bool
  token : String
  tokenRotationInterval : Bool
  shouldUseAuthentication : Bool
deriving DecidableEq, Repr

/-- `new ProxyServer()`: all fields at their initializers. -/
def ProxyServer.new : ProxyServer :=
  { server := none, proxy := false, token := "",
    tokenRotationInterval := false, shouldUseAuthentication := false }

/-- `isRunning()`: `this.server !== null`. -/
def ProxyServer.isRunning (s : ProxyServer) : Bool :=
  s.server.isSome

/-- `rotateToken()`. `liveTokenCommand` is the value of
`config.get('tokenCommand')` at the moment of this call (the method re-reads
the workspace configuration every time); `exec` the outcome of `execSync`.
If authentication is disabled: no-op. If the live command is unset or blank:
disable authentication and clear the token. Otherwise on success store the
sanitized output; on failure keep the old token (the `catch` block changes
nothing). -/
def ProxyServer.rotateToken (s : ProxyServer) (liveTokenCommand : Option String)
    (exec : ExecResult) : ProxyServer :=
  if s.shouldUseAuthentication then
    let tokenCommand := liveTokenCommand.getD ""
    if jsTrim tokenCommand = "" then
      { s with shouldUseAuthentication := false, token := "" }
    else
      match exec with
      | .success output => { s with token := sanitizeToken output }
      | .failure => s
  else
    s

/-- `start()` on the valid-port domain. Returns the updated state and the
resolved boolean. The body follows the source order: early-return when
already running; read the configuration; set `shouldUseAuthentication` from
the trimmed token command; fail when `destination` is falsy (unset or
empty); run the initial `rotateToken` when authentication is enabled;
assign the server, `listen`, and set the rotation interval when
authentication is enabled. This definition models the `listen` callback as
firing, which is the program behaviour whenever the effective port is one
`net.Server.listen` accepts (0 to 65535) and binding succeeds (bind
failures are environmental). For ports outside that range, `listen` throws
synchronously and the promise rejects instead; see
`ProxyServer.startWithListen` for the refinement covering that case and
`startWithListen_eq_start` for the proof that this definition is exactly
its restriction to accepted ports. -/
def ProxyServer.start (s : ProxyServer) (wc : WorkspaceConfig)
    (exec : ExecResult) : ProxyServer × Bool :=
  if s.server.isSome then
    (s, false)
  else
    let tokenCommand := wc.tokenCommand.getD ""
    let proxyPort := jsOrNat wc.proxyPort 123456
    let tokenRotationMinutes := jsOrNat wc.tokenRotationMinutes 60
    let s := { s with shouldUseAuthentication := jsTrim tokenCommand ≠ "" }
    match wc.destination with
    | none => (s, false)
    | some destination =>
      if destination = "" then
        (s, false)
      else
        let s := if s.shouldUseAuthentication
                 then s.rotateToken wc.tokenCommand exec
                 else s
        let s := { s with
          server := some ⟨destination, proxyPort, tokenRotationMinutes⟩ }
        let s := if s.shouldUseAuthentication
                 then { s with tokenRotationInterval := true }
                 else s
        (s, true)

/-- The outcome of the promise returned by `start()`: resolved with a
boolean, or rejected. Rejection happens when code inside the promise
executor throws synchronously - in this program, when `listen` throws
ERR_SOCKET_BAD_PORT; the throw is swallowed by the Promise constructor, so
the surrounding try/catch of `start()` never fires and `resolve` is never
called. -/
inductive StartOutcome where
  | resolved (value : Bool)
  | rejected
deriving DecidableEq, Repr

/-- Node `validatePort`, applied by `net.Server.listen` to its port
argument: integers 0 to 65535 are accepted, anything larger throws
ERR_SOCKET_BAD_PORT synchronously (the config model cannot produce
negative or fractional ports). -/
def validPort (p : Nat) : Bool := p ≤ 65535

/-- `start()` including the `listen` port validation: identical to
`ProxyServer.start` up to the `listen` call, then: on an accepted port the
callback fires (rotation interval, `resolve(true)`); on an out-of-range
port `listen` throws synchronously inside the promise executor, so the
promise is rejected, the callback never runs (no rotation interval), and
`this.server` - assigned before `listen` - is left non-null. -/
def ProxyServer.startWithListen (s : ProxyServer) (wc : WorkspaceConfig)
    (exec : ExecResult) : ProxyServer × StartOutcome :=
  if s.server.isSome then
    (s, .resolved false)
  else
    let tokenCommand := wc.tokenCommand.getD ""
    let proxyPort := jsOrNat wc.proxyPort 123456
    let tokenRotationMinutes := jsOrNat wc.tokenRotationMinutes 60
    let s := { s with shouldUseAuthentication := jsTrim tokenCommand ≠ "" }
    match wc.destination with
    | none => (s, .resolved false)
    | some destination =>
      if destination = "" then
        (s, .resolved false)
      else
        let s := if s.shouldUseAuthentication
                 then s.rotateToken wc.tokenCommand exec
                 else s
        let s := { s with
          server := some ⟨destination, proxyPort, tokenRotationMinutes⟩ }
        if validPort proxyPort then
          let s := if s.shouldUseAuthentication
                   then { s with tokenRotationInterval := true }
                   else s
          (s, .resolved true)
        else
          (s, .rejected)

/-- `stop()`. Failure (and no change) when not running; otherwise clear the
interval, close the server, null out `server` and `proxy`, and reset the
authentication flag. The stored token is not cleared. -/
def ProxyServer.stop (s : ProxyServer) : ProxyServer × Bool :=
  if s.server.isSome then
    ({ s with tokenRotationInterval := false, server := none,
              proxy := false, shouldUseAuthentication := false }, true)
  else
    (s, false)

/-- A sequence of rotation-timer firings: each carries the `tokenCommand`
configuration value live at that firing and the `execSync` outcome. -/
def runRotations (s : ProxyServer)
    (steps : List (Option String × ExecResult)) : ProxyServer :=
  steps.foldl (fun s p => s.rotateToken p.1 p.2) s

/-! ## URLs and the per-request pipeline -/

/-- The parts of `new URL(destination)` the request handler uses: `protocol`
(with trailing colon), `hostname`, `port` (`none` when the URL has no explicit
port; WHATWG `url.port` is then the empty string), and `pathname` (which the
handler never reads). -/
structure Url where
  protocol : String
  hostname : String
  port : Option Nat
  pathname : String
deriving DecidableEq, Repr

/-- Split a character list at the first occurrence of `sep`, returning the
parts before and after it. -/
def splitFirstSep (sep : List Char) : List Char → Option (List Char × List Char)
  | [] => if sep.isEmpty then some ([], []) else none
  | c :: cs =>
    if sep.isPrefixOf (c :: cs) then
      some ([], (c :: cs).drop sep.length)
    else
      match splitFirstSep sep cs with
      | some (pre, post) => some (c :: pre, post)
      | none => none

/-- Digits to a natural number. -/
def digitsToNat (l : List Char) : Nat :=
  l.foldl (fun n c => n * 10 + (c.toNat - 48)) 0

/-- A simplified `new URL(s)` covering the `scheme://host[:port][/path][?query]`
shapes this extension is configured with (no userinfo, no IPv6 literals;
percent-encoding left untouched). Returns `none` when the string has no
scheme or no host, where the constructor would throw. -/
def parseUrl (s : String) : Option Url :=
  match splitFirstSep "://".data s.data with
  | none => none
  | some (scheme, rest) =>
    if scheme.isEmpty then none
    else
      let hostport := rest.takeWhile (fun c => c != '/' && c != '?' && c != '#')
      let tail := rest.drop hostport.length
      let (host, port) :=
        match splitFirstSep [':'] hostport with
        | some (h, p) =>
          (h, if !p.isEmpty && p.all (·.isDigit) then some (digitsToNat p) else none)
        | none => (hostport, none)
      if host.isEmpty then none
      else
        let pathname := tail.takeWhile (fun c => c != '?' && c != '#')
        some { protocol := String.mk scheme ++ ":",
               hostname := String.mk host,
               port := port,
               pathname := if pathname.isEmpty then "/" else String.mk pathname }

/-- An inbound request as the handler sees it: `req.url` (path + query),
`req.method`, and `req.headers` (names already lowercased by Node). -/
structure Request where
  url : String
  method : String
  headers : Headers
deriving DecidableEq, Repr

/-- The `options` object the handler passes to `http.request` /
`https.request`, together with which of the two functions is used. -/
structure RequestOptions where
  hostname : String
  port : Nat
  path : String
  method : String
  headers : Headers
  timeout : Nat
  keepAlive : Bool
  keepAliveMsecs : Nat
  maxSockets : Nat
  rejectUnauthorized : Bool
  isHttps : Bool
deriving DecidableEq, Repr

/-- The attach condition of the request handler:
`this.shouldUseAuthentication && this.token && this.token.trim() !== ''`
(a string is truthy exactly when non-empty). -/
def attachCond (s : ProxyServer) : Bool :=
  s.shouldUseAuthentication && s.token ≠ "" && jsTrim s.token ≠ ""

/-- The outbound-request construction of the request handler: resolve the
destination URL parts, spread the inbound headers, attach
`Authorization: Bearer <sanitized token>` when authentication is enabled and
the stored token is truthy and non-blank (`attachCond`), then delete `host`,
`connection` and `proxy-connection`. `s` is the server state at the moment
the request starts, `u` the parse of the `destination` captured at start. -/
def handleRequestOptions (s : ProxyServer) (u : Url) (req : Request) :
    RequestOptions :=
  let isHttps := u.protocol = "https:"
  let headers := req.headers
  let headers :=
    if attachCond s then
      hSet headers "Authorization" ("Bearer " ++ sanitizeToken s.token)
    else
      headers
  let headers := hDel (hDel (hDel headers "host") "connection") "proxy-connection"
  { hostname := u.hostname,
    port := u.port.getD (if isHttps then 443 else 80),
    path := req.url,
    method := req.method,
    headers := headers,
    timeout := 30000,
    keepAlive := true,
    keepAliveMsecs := 1000,
    maxSockets := 50,
    rejectUnauthorized := false,
    isHttps := isHttps }

/-- The destination path prefix as the spec words it: the path component of
the destination base URL (empty when the destination has the root path). -/
def destPathPrefix (u : Url) : String :=
  if u.pathname = "/" then "" else u.pathname

/-- Modelled from the spec words of the forwarding claim: a request to
`/foo?x=1` is forwarded to `<destination>/foo?x=1`, with the destination
URL path component preserved as a prefix and the inbound path and query
appended. To be compared against `(handleRequestOptions ..).path`. -/
def specTargetPath (u : Url) (req : Request) : String :=
  destPathPrefix u ++ req.url

/-- The stored token contains no whitespace character. This holds for every
reachable state: the constructor initializes the token to `""`, and
`rotateToken` only ever stores `""` or a sanitized command output. -/
def tokenWsFree (s : ProxyServer) : Bool :=
  s.token.data.all (fun c => !isJsWs c)

/-! ## Helper lemmas on strings and headers -/

theorem dropWhile_eq_self_of_all {p : Char → Bool} :
    ∀ l : List Char, (∀ c ∈ l, p c = false) → l.dropWhile p = l
  | [], _ => rfl
  | c :: cs, h => by
    simp only [List.dropWhile, h c (by simp)]

theorem jsTrim_of_wsFree {s : String}
    (h : s.data.all (fun c => !isJsWs c) = true) : jsTrim s = s := by
  have hall : ∀ c ∈ s.data, isJsWs c = false := by
    intro c hc
    simpa using List.all_eq_true.mp h c hc
  cases s with
  | mk l =>
    unfold jsTrim
    simp only [String.data] at hall ⊢
    rw [dropWhile_eq_self_of_all l hall,
        dropWhile_eq_self_of_all l.reverse (fun c hc => hall c (List.mem_reverse.mp hc)),
        List.reverse_reverse]

theorem stripJsWs_of_wsFree {s : String}
    (h : s.data.all (fun c => !isJsWs c) = true) : stripJsWs s = s := by
  cases s with
  | mk l =>
    unfold stripJsWs
    simp only [String.data] at h ⊢
    rw [List.filter_eq_self.mpr (by intro a ha; simpa using List.all_eq_true.mp h a ha)]

theorem sanitizeToken_of_wsFree {s : String}
    (h : s.data.all (fun c => !isJsWs c) = true) : sanitizeToken s = s := by
  unfold sanitizeToken
  rw [jsTrim_of_wsFree h, stripJsWs_of_wsFree h]

theorem sanitizeToken_wsFree (s : String) :
    (sanitizeToken s).data.all (fun c => !isJsWs c) = true := by
  apply List.all_eq_true.mpr
  intro c hc
  have : c ∈ (jsTrim s).data.filter (fun c => !isJsWs c) := hc
  exact (List.mem_filter.mp this).2

theorem lowerEq_congr {k k2 : String} (hk : lowerName k = lowerName k2) (a : String) :
    lowerEq a k = lowerEq a k2 := by
  unfold lowerEq
  rw [hk]

theorem lowerEq_of_lowerName_eq {a b : String} (h : lowerName a = lowerName b) :
    lowerEq a b = true := by
  simpa [lowerEq] using h

theorem lowerName_eq_of_lowerEq {a b : String} (h : lowerEq a b = true) :
    lowerName a = lowerName b := by
  simpa [lowerEq] using h

theorem hGet_hSet (h : Headers) {k k2 : String} (v : String)
    (hk : lowerName k = lowerName k2) :
    hGet (hSet h k v) k2 = some v := by
  induction h with
  | nil =>
    simp [hSet, hGet, List.find?, lowerEq_of_lowerName_eq hk]
  | cons p ps ih =>
    by_cases hp : lowerEq p.1 k = true
    · have hp2 : lowerEq p.1 k2 = true := (lowerEq_congr hk p.1) ▸ hp
      simp [hSet, hp, hGet, List.find?, hp2]
    · have hp2 : lowerEq p.1 k2 = false := by
        rw [← lowerEq_congr hk p.1]
        simpa using hp
      simp only [hSet, hp, if_false, Bool.false_eq_true]
      simpa [hGet, List.find?, hp2] using ih

theorem hGet_hDel_of_ne (h : Headers) {k kd : String}
    (hk : ¬ lowerName k = lowerName kd) :
    hGet (hDel h kd) k = hGet h k := by
  induction h with
  | nil => rfl
  | cons p ps ih =>
    by_cases hp : lowerEq p.1 k = true
    · have hpd : lowerEq p.1 kd = false := by
        by_contra hc
        exact hk ((lowerName_eq_of_lowerEq hp).symm.trans
          (lowerName_eq_of_lowerEq (by simpa using hc)))
      simp [hDel, hGet, List.find?, hp, hpd]
    · by_cases hpd : lowerEq p.1 kd = true
      · simpa [hDel, hGet, List.find?_cons, List.filter_cons, hp, hpd] using ih
      · simpa [hDel, hGet, List.find?_cons, List.filter_cons, hp, hpd] using ih

theorem hCount_hDel_of_ne (h : Headers) {k kd : String}
    (hk : ¬ lowerName k = lowerName kd) :
    hCount (hDel h kd) k = hCount h k := by
  induction h with
  | nil => rfl
  | cons p ps ih =>
    by_cases hp : lowerEq p.1 k = true
    · have hpd : lowerEq p.1 kd = false := by
        by_contra hc
        exact hk ((lowerName_eq_of_lowerEq hp).symm.trans
          (lowerName_eq_of_lowerEq (by simpa using hc)))
      simp [hDel, hCount, List.filter, hp, hpd] at ih ⊢
      exact ih
    · by_cases hpd : lowerEq p.1 kd = true
      · simpa [hDel, hCount, List.filter, hpd, hp] using ih
      · simp [hDel, hCount, List.filter, hpd, hp] at ih ⊢
        exact ih

theorem hCount_hSet (h : Headers) {k k2 : String} (v : String)
    (hk : lowerName k = lowerName k2) :
    hCount (hSet h k v) k2 = if hCount h k2 = 0 then 1 else hCount h k2 := by
  induction h with
  | nil =>
    simp [hSet, hCount, List.filter, lowerEq_of_lowerName_eq hk]
  | cons p ps ih =>
    by_cases hp : lowerEq p.1 k = true
    · have hp2 : lowerEq p.1 k2 = true := (lowerEq_congr hk p.1) ▸ hp
      simp [hSet, hp, hCount, List.filter, hp2]
    · have hp2 : lowerEq p.1 k2 = false := by
        rw [← lowerEq_congr hk p.1]
        simpa using hp
      have hc : hCount (p :: ps) k2 = hCount ps k2 := by
        simp [hCount, List.filter_cons, hp2]
      have hs : hSet (p :: ps) k v = p :: hSet ps k v := by
        simp [hSet, hp]
      have hc2 : hCount (p :: hSet ps k v) k2 = hCount (hSet ps k v) k2 := by
        simp [hCount, List.filter_cons, hp2]
      rw [hs, hc2, hc, ih]

/-! ## Helper lemmas on the server operations -/

theorem rotateToken_server (s : ProxyServer) (c : Option String) (e : ExecResult) :
    (s.rotateToken c e).server = s.server := by
  simp only [ProxyServer.rotateToken]
  repeat' split
  all_goals rfl

theorem rotateToken_of_not_auth {s : ProxyServer} (c : Option String)
    (e : ExecResult) (h : s.shouldUseAuthentication = false) :
    s.rotateToken c e = s := by
  unfold ProxyServer.rotateToken
  rw [h]
  rfl

theorem runRotations_server (s : ProxyServer)
    (steps : List (Option String × ExecResult)) :
    (runRotations s steps).server = s.server := by
  induction steps generalizing s with
  | nil => rfl
  | cons p ps ih =>
    show (runRotations (s.rotateToken p.1 p.2) ps).server = s.server
    rw [ih, rotateToken_server]

theorem runRotations_of_not_auth {s : ProxyServer}
    (steps : List (Option String × ExecResult))
    (h : s.shouldUseAuthentication = false) :
    runRotations s steps = s := by
  induction steps with
  | nil => rfl
  | cons p ps ih =>
    show runRotations (s.rotateToken p.1 p.2) ps = s
    rw [rotateToken_of_not_auth p.1 p.2 h]
    exact ih

theorem headers_attach (s : ProxyServer) (u : Url) (req : Request)
    (hc : attachCond s = true) :
    (handleRequestOptions s u req).headers =
      hDel (hDel (hDel
        (hSet req.headers "Authorization" ("Bearer " ++ sanitizeToken s.token))
        "host") "connection") "proxy-connection" := by
  simp [handleRequestOptions, hc]

theorem headers_no_attach (s : ProxyServer) (u : Url) (req : Request)
    (hc : attachCond s = false) :
    (handleRequestOptions s u req).headers =
      hDel (hDel (hDel req.headers "host") "connection") "proxy-connection" := by
  simp [handleRequestOptions, hc]

theorem hGet_authorization_attach (s : ProxyServer) (u : Url) (req : Request)
    (hc : attachCond s = true) :
    hGet (handleRequestOptions s u req).headers "authorization" =
      some ("Bearer " ++ sanitizeToken s.token) := by
  rw [headers_attach s u req hc,
      hGet_hDel_of_ne _ (by decide), hGet_hDel_of_ne _ (by decide),
      hGet_hDel_of_ne _ (by decide)]
  exact hGet_hSet _ _ (by decide)

theorem hGet_authorization_no_attach (s : ProxyServer) (u : Url) (req : Request)
    (hc : attachCond s = false) :
    hGet (handleRequestOptions s u req).headers "authorization" =
      hGet req.headers "authorization" := by
  rw [headers_no_attach s u req hc,
      hGet_hDel_of_ne _ (by decide), hGet_hDel_of_ne _ (by decide),
      hGet_hDel_of_ne _ (by decide)]

/-! ## The whitespace-free token invariant -/

theorem tokenWsFree_new : tokenWsFree ProxyServer.new = true := by decide

theorem wsFree_token_rotateToken {s : ProxyServer} (c : Option String)
    (e : ExecResult) (h : s.token.data.all (fun c => !isJsWs c) = true) :
    (s.rotateToken c e).token.data.all (fun c => !isJsWs c) = true := by
  simp only [ProxyServer.rotateToken]
  repeat' split
  all_goals first
    | exact h
    | exact sanitizeToken_wsFree _
    | rfl

theorem tokenWsFree_rotateToken {s : ProxyServer} (c : Option String)
    (e : ExecResult) (h : tokenWsFree s = true) :
    tokenWsFree (s.rotateToken c e) = true :=
  wsFree_token_rotateToken c e h

theorem tokenWsFree_start {s : ProxyServer} (wc : WorkspaceConfig)
    (e : ExecResult) (h : tokenWsFree s = true) :
    tokenWsFree (s.start wc e).1 = true := by
  simp only [ProxyServer.start]
  repeat' split
  all_goals first
    | exact h
    | exact wsFree_token_rotateToken _ _ h

theorem start_of_running {s : ProxyServer} (wc : WorkspaceConfig)
    (e : ExecResult) (h : s.server.isSome = true) :
    s.start wc e = (s, false) := by
  simp [ProxyServer.start, h]

theorem start_failed_destination {s : ProxyServer} {wc : WorkspaceConfig}
    {e : ExecResult} (h : s.server = none)
    (hd : wc.destination = none ∨ wc.destination = some "") :
    s.start wc e =
      ({ s with shouldUseAuthentication := jsTrim (wc.tokenCommand.getD "") ≠ "" },
       false) := by
  rcases hd with hd | hd <;> simp [ProxyServer.start, h, hd]

theorem start_success {s : ProxyServer} {wc : WorkspaceConfig}
    {e : ExecResult} {d : String} (h : s.server = none)
    (hd : wc.destination = some d) (hne : d ≠ "") :
    (s.start wc e).2 = true ∧
    (s.start wc e).1.server =
      some ⟨d, jsOrNat wc.proxyPort 123456, jsOrNat wc.tokenRotationMinutes 60⟩ := by
  constructor
  · simp only [ProxyServer.start, h, hd, Option.isSome_none, Bool.false_eq_true,
      if_false]
    rw [if_neg hne]
  · simp only [ProxyServer.start, h, hd, Option.isSome_none, Bool.false_eq_true,
      if_false]
    rw [if_neg hne]
    repeat' split
    all_goals rfl

theorem start_auth_of_blank_cmd {s : ProxyServer} {wc : WorkspaceConfig}
    {e : ExecResult} (h : s.server = none)
    (hcmd : jsTrim (wc.tokenCommand.getD "") = "") :
    (s.start wc e).1.shouldUseAuthentication = false := by
  rcases h2 : wc.destination with _ | d
  · simp [ProxyServer.start, h, h2, hcmd]
  · by_cases hde : d = "" <;> simp [ProxyServer.start, h, h2, hde, hcmd]

theorem rotateToken_interval (s : ProxyServer) (c : Option String)
    (e : ExecResult) :
    (s.rotateToken c e).tokenRotationInterval = s.tokenRotationInterval := by
  simp only [ProxyServer.rotateToken]
  repeat' split
  all_goals rfl

theorem startWithListen_failed_destination {s : ProxyServer}
    {wc : WorkspaceConfig} {e : ExecResult} (h : s.server = none)
    (hd : wc.destination = none ∨ wc.destination = some "") :
    s.startWithListen wc e =
      ({ s with shouldUseAuthentication := jsTrim (wc.tokenCommand.getD "") ≠ "" },
       .resolved false) := by
  rcases hd with hd | hd <;> simp [ProxyServer.startWithListen, h, hd]

theorem startWithListen_bad_port {s : ProxyServer} {wc : WorkspaceConfig}
    {e : ExecResult} {d : String} (h : s.server = none)
    (hd : wc.destination = some d) (hne : d ≠ "")
    (hp : validPort (jsOrNat wc.proxyPort 123456) = false) :
    (s.startWithListen wc e).2 = .rejected
  ∧ (s.startWithListen wc e).1.server =
      some ⟨d, jsOrNat wc.proxyPort 123456, jsOrNat wc.tokenRotationMinutes 60⟩
  ∧ (s.startWithListen wc e).1.tokenRotationInterval = s.tokenRotationInterval := by
  simp only [ProxyServer.startWithListen, h, hd, Option.isSome_none,
    Bool.false_eq_true, if_false]
  rw [if_neg hne, hp]
  simp only [Bool.false_eq_true, if_false]
  refine ⟨trivial, trivial, ?_⟩
  split
  · exact rotateToken_interval _ _ _
  · rfl

theorem startWithListen_eq_start (s : ProxyServer) (wc : WorkspaceConfig)
    (e : ExecResult) (hp : validPort (jsOrNat wc.proxyPort 123456) = true) :
    s.startWithListen wc e = ((s.start wc e).1, .resolved (s.start wc e).2) := by
  by_cases h : s.server.isSome = true
  · simp [ProxyServer.startWithListen, ProxyServer.start, h]
  · rcases hd : wc.destination with _ | d
    · simp [ProxyServer.startWithListen, ProxyServer.start, h, hd]
    · by_cases hne : d = ""
      · simp [ProxyServer.startWithListen, ProxyServer.start, h, hd, hne]
      · simp [ProxyServer.startWithListen, ProxyServer.start, h, hd, hne, hp]

theorem stop_of_running {s : ProxyServer} (h : s.server.isSome = true) :
    s.stop = ({ s with tokenRotationInterval := false, server := none,
                       proxy := false, shouldUseAuthentication := false }, true) := by
  simp [ProxyServer.stop, h]

theorem stop_of_stopped {s : ProxyServer} (h : s.server.isSome = false) :
    s.stop = (s, false) := by
  simp [ProxyServer.stop, h]

theorem tokenWsFree_stop {s : ProxyServer} (h : tokenWsFree s = true) :
    tokenWsFree s.stop.1 = true := by
  unfold ProxyServer.stop
  split <;> exact h

theorem tokenWsFree_runRotations {s : ProxyServer}
    (steps : List (Option String × ExecResult)) (h : tokenWsFree s = true) :
    tokenWsFree (runRotations s steps) = true := by
  induction steps generalizing s with
  | nil => exact h
  | cons p ps ih =>
    exact ih (tokenWsFree_rotateToken p.1 p.2 h)

/-! ## Claim C1: configuration frozen after start -/

/-- C1 (counterexample): the claim that every configuration value read at
start stays in effect for every subsequent rotate() fails: after a start
that read tokenCommand "getTok" (authentication enabled), a rotate() whose
live configuration value is now "" observes the changed value and disables
authentication, an outcome impossible under either exec outcome when the
frozen start-time value "getTok" is used. -/
theorem rotate_reads_live_config_cex :
    ((ProxyServer.start ProxyServer.new
        { destination := some "http://example.com", tokenCommand := some "getTok",
          proxyPort := some 8080, tokenRotationMinutes := some 5 }
        (.success "T1")).1.rotateToken (some "") (.success "T2")).shouldUseAuthentication
      = false
  ∧ ((ProxyServer.start ProxyServer.new
        { destination := some "http://example.com", tokenCommand := some "getTok",
          proxyPort := some 8080, tokenRotationMinutes := some 5 }
        (.success "T1")).1.rotateToken (some "getTok") (.success "T2")).shouldUseAuthentication
      = true
  ∧ ((ProxyServer.start ProxyServer.new
        { destination := some "http://example.com", tokenCommand := some "getTok",
          proxyPort := some 8080, tokenRotationMinutes := some 5 }
        (.success "T1")).1.rotateToken (some "getTok") .failure).shouldUseAuthentication
      = true := by
  decide

/-- C1 (amended): the destination, listen port and rotation interval captured
by a successful start (the server handle) are unchanged by every subsequent
sequence of rotations, so those three values are frozen for the run; the
tokenCommand, however, is re-read from the live configuration at each
rotate(), which therefore observes the value current at that moment (in
particular a rotate() whose live command is empty disables authentication
even though the command was non-empty at start). -/
theorem captured_config_frozen :
    (∀ (s : ProxyServer) (steps : List (Option String × ExecResult)),
        (runRotations s steps).server = s.server)
  ∧ (∀ (s : ProxyServer) (e : ExecResult), s.shouldUseAuthentication = true →
        (s.rotateToken (some "") e).shouldUseAuthentication = false) := by
  constructor
  · exact runRotations_server
  · intro s e ha
    simp [ProxyServer.rotateToken, ha, show jsTrim "" = "" from rfl]

/-- C1 (witness): the live-read half of the amended claim applied at a
concrete running state. -/
theorem captured_config_frozen_witness :
    (ProxyServer.rotateToken
      { server := some { destination := "http://example.com", proxyPort := 8080,
                         rotationMinutes := 5 },
        proxy := false, token := "T1", tokenRotationInterval := true,
        shouldUseAuthentication := true }
      (some "") .failure).shouldUseAuthentication = false :=
  captured_config_frozen.2
    { server := some { destination := "http://example.com", proxyPort := 8080,
                       rotationMinutes := 5 },
      proxy := false, token := "T1", tokenRotationInterval := true,
      shouldUseAuthentication := true }
    .failure rfl

/-! ## Claim C2: failed rotation keeps the previous token -/

/-- C2 (counterexample): a rotate() that fails because the command string is
empty does not leave the previous token value in place: starting from a
running state holding token "T1", the empty-command branch stores "",
not "T1". -/
theorem rotate_empty_cmd_clears_token_cex :
    (ProxyServer.rotateToken
      { server := some { destination := "http://example.com", proxyPort := 8080,
                         rotationMinutes := 60 },
        proxy := false, token := "T1", tokenRotationInterval := true,
        shouldUseAuthentication := true }
      (some "") .failure).token = ""
  ∧ ¬ (ProxyServer.rotateToken
      { server := some { destination := "http://example.com", proxyPort := 8080,
                         rotationMinutes := 60 },
        proxy := false, token := "T1", tokenRotationInterval := true,
        shouldUseAuthentication := true }
      (some "") .failure).token = "T1" := by
  decide

/-- C2 (amended): a rotate() that fails by non-zero exit or timeout (with a
non-blank live command) leaves the whole state, in particular the stored
token, unchanged; and after a successful rotation stored token "T1" followed
by such a failed rotation, a subsequent request still attaches
Authorization: Bearer T1. (When instead the command string is empty, the
code clears the token to "" and disables authentication, so no header is
attached at all from then on.) -/
theorem rotate_exec_failure_keeps_token :
    (∀ (s : ProxyServer) (cmd : String), jsTrim cmd ≠ "" →
        s.rotateToken (some cmd) .failure = s)
  ∧ (∀ (s : ProxyServer) (cmd : String) (u : Url) (req : Request),
        s.shouldUseAuthentication = true → jsTrim cmd ≠ "" →
        ((s.rotateToken (some cmd) (.success "T1")).rotateToken
            (some cmd) .failure).token = "T1"
      ∧ hGet (handleRequestOptions
            ((s.rotateToken (some cmd) (.success "T1")).rotateToken
              (some cmd) .failure)
            u req).headers "authorization" = some "Bearer T1") := by
  constructor
  · intro s cmd hcmd
    by_cases ha : s.shouldUseAuthentication = true
    · simp [ProxyServer.rotateToken, ha, hcmd]
    · simp [ProxyServer.rotateToken, ha]
  · intro s cmd u req ha hcmd
    have h1 : s.rotateToken (some cmd) (.success "T1") = { s with token := "T1" } := by
      simp [ProxyServer.rotateToken, ha, hcmd,
        show sanitizeToken "T1" = "T1" from rfl]
    have h2 : ({ s with token := "T1" } : ProxyServer).rotateToken
        (some cmd) .failure = { s with token := "T1" } := by
      simp [ProxyServer.rotateToken, ha, hcmd]
    rw [h1, h2]
    refine ⟨rfl, ?_⟩
    have hc : attachCond { s with token := "T1" } = true := by
      show (s.shouldUseAuthentication
        && decide (("T1" : String) ≠ "") && decide (jsTrim "T1" ≠ "")) = true
      rw [ha]
      decide
    exact (hGet_authorization_attach _ u req hc).trans rfl

/-- C2 (witness): both halves of the amended claim applied at concrete
states: a failed rotation with command "getTok" changes nothing, and the
T1-then-failure scenario still attaches Bearer T1. -/
theorem rotate_exec_failure_keeps_token_witness :
    ProxyServer.rotateToken
      { server := none, proxy := false, token := "", tokenRotationInterval := false,
        shouldUseAuthentication := true } (some "getTok") .failure =
      { server := none, proxy := false, token := "", tokenRotationInterval := false,
        shouldUseAuthentication := true }
  ∧ (((ProxyServer.rotateToken
        { server := none, proxy := false, token := "", tokenRotationInterval := false,
          shouldUseAuthentication := true }
        (some "getTok") (.success "T1")).rotateToken (some "getTok") .failure).token
        = "T1"
    ∧ hGet (handleRequestOptions
        ((ProxyServer.rotateToken
          { server := none, proxy := false, token := "", tokenRotationInterval := false,
            shouldUseAuthentication := true }
          (some "getTok") (.success "T1")).rotateToken (some "getTok") .failure)
        { protocol := "http:", hostname := "example.com", port := none, pathname := "/" }
        { url := "/foo?x=1", method := "GET", headers := [] }).headers "authorization"
        = some "Bearer T1") :=
  ⟨rotate_exec_failure_keeps_token.1 _ "getTok" (by decide),
   rotate_exec_failure_keeps_token.2 _ "getTok" _ _ rfl (by decide)⟩

/-! ## Claim C3: configuration errors leave no partial state -/

/-- C3 (counterexample): the claim fails on both of its error classes.
First, a start() with an empty destination and tokenCommand "x" does fail
synchronously, but it mutates the authentication flag (false before the
call, true after), so partial state is left. Second, with a valid
destination and the out-of-range listen port 999999, start() performs no
configuration check of its own: it proceeds to listen(), which throws
ERR_SOCKET_BAD_PORT inside the promise executor, so the start promise is
rejected rather than failing with a configuration-error return, and
this.server - assigned before listen() - is left non-null: isRunning()
reports true although no listener is bound. -/
theorem start_invalid_config_cex :
    ((ProxyServer.startWithListen ProxyServer.new
        { destination := some "", tokenCommand := some "x",
          proxyPort := some 8080, tokenRotationMinutes := some 60 }
        .failure).1.shouldUseAuthentication = true
      ∧ ProxyServer.new.shouldUseAuthentication = false)
  ∧ ((ProxyServer.startWithListen ProxyServer.new
        { destination := some "http://example.com", tokenCommand := none,
          proxyPort := some 999999, tokenRotationMinutes := some 60 }
        .failure).2 = .rejected
      ∧ (ProxyServer.startWithListen ProxyServer.new
        { destination := some "http://example.com", tokenCommand := none,
          proxyPort := some 999999, tokenRotationMinutes := some 60 }
        .failure).1.isRunning = true) := by
  decide

/-- C3 (amended): for every configuration with a missing or empty
destination, start() resolves false synchronously and binds no listener,
and every field except the authentication flag is unchanged; the
authentication flag, however, is recomputed from the (possibly new)
tokenCommand before the destination check, so it is not restored on
failure. start() itself performs no port validation: with a non-empty
destination and an effective port outside the range listen() accepts
(0 to 65535 - which includes the default 123456 used when the port is
unset or 0), listen() throws synchronously, the start promise is rejected
instead of resolving with a failure, the listen callback never runs (no
rotation interval is set), and the server field has already been assigned,
so partial state is left and isRunning() wrongly reports true. -/
theorem start_missing_destination_amended :
    (∀ (s : ProxyServer) (wc : WorkspaceConfig) (e : ExecResult),
        s.server = none → (wc.destination = none ∨ wc.destination = some "") →
        s.startWithListen wc e =
          ({ s with shouldUseAuthentication := jsTrim (wc.tokenCommand.getD "") ≠ "" },
           .resolved false))
  ∧ (∀ (s : ProxyServer) (wc : WorkspaceConfig) (e : ExecResult) (d : String),
        s.server = none → wc.destination = some d → d ≠ "" →
        validPort (jsOrNat wc.proxyPort 123456) = false →
        (s.startWithListen wc e).2 = .rejected
      ∧ (s.startWithListen wc e).1.server =
          some ⟨d, jsOrNat wc.proxyPort 123456, jsOrNat wc.tokenRotationMinutes 60⟩
      ∧ (s.startWithListen wc e).1.tokenRotationInterval = s.tokenRotationInterval) := by
  constructor
  · intro s wc e h hd
    exact startWithListen_failed_destination h hd
  · intro s wc e d h hd hne hp
    exact startWithListen_bad_port h hd hne hp

/-- C3 (witness): the amended claim applied to a fresh server with an empty
destination, and to a fresh server with a valid destination and no
configured port, whose effective port is the out-of-range default 123456. -/
theorem start_missing_destination_amended_witness :
    ProxyServer.startWithListen ProxyServer.new
      { destination := some "", tokenCommand := some "x",
        proxyPort := some 8080, tokenRotationMinutes := some 60 } .failure =
      ({ ProxyServer.new with shouldUseAuthentication := jsTrim ((some "x").getD "") ≠ "" },
       .resolved false)
  ∧ ((ProxyServer.startWithListen ProxyServer.new
      { destination := some "http://example.com", tokenCommand := none,
        proxyPort := none, tokenRotationMinutes := some 60 } .failure).2 = .rejected
    ∧ (ProxyServer.startWithListen ProxyServer.new
      { destination := some "http://example.com", tokenCommand := none,
        proxyPort := none, tokenRotationMinutes := some 60 } .failure).1.server =
        some ⟨"http://example.com", jsOrNat none 123456, jsOrNat (some 60) 60⟩
    ∧ (ProxyServer.startWithListen ProxyServer.new
      { destination := some "http://example.com", tokenCommand := none,
        proxyPort := none, tokenRotationMinutes := some 60 } .failure).1.tokenRotationInterval
        = ProxyServer.new.tokenRotationInterval) :=
  ⟨start_missing_destination_amended.1 _ _ _ rfl (Or.inr rfl),
   start_missing_destination_amended.2 _ _ _ "http://example.com" rfl rfl (by decide)
     (by decide)⟩

/-! ## Claim C4: forwarding target -/

/-- C4 (counterexample): for the destination base URL
http://example.com/api the outbound path built for the inbound request
/foo?x=1 is /foo?x=1, not /api/foo?x=1: the destination URL path component
is dropped, not preserved as a prefix. -/
theorem forward_path_drops_dest_prefix_cex :
    parseUrl "http://example.com/api" =
      some { protocol := "http:", hostname := "example.com", port := none,
             pathname := "/api" }
  ∧ (handleRequestOptions ProxyServer.new
      { protocol := "http:", hostname := "example.com", port := none,
        pathname := "/api" }
      { url := "/foo?x=1", method := "GET", headers := [] }).path = "/foo?x=1"
  ∧ specTargetPath
      { protocol := "http:", hostname := "example.com", port := none,
        pathname := "/api" }
      { url := "/foo?x=1", method := "GET", headers := [] } = "/api/foo?x=1"
  ∧ ("/foo?x=1" : String) ≠ "/api/foo?x=1" := by
  decide

/-- C4 (amended): the outbound request uses only the origin of the
destination URL: its path is exactly the inbound path and query string
(req.url), its hostname is the destination hostname, and its port is the
destination port or the scheme default (443 for https, else 80); the
destination URL path component is ignored, so the claimed forwarding to
destination-path plus inbound path holds only for destinations whose path
component is the root. -/
theorem forward_target_amended (s : ProxyServer) (u : Url) (req : Request) :
    (handleRequestOptions s u req).path = req.url
  ∧ (handleRequestOptions s u req).hostname = u.hostname
  ∧ (handleRequestOptions s u req).port =
      u.port.getD (if u.protocol = "https:" then 443 else 80)
  ∧ (u.pathname = "/" → specTargetPath u req = req.url) := by
  refine ⟨rfl, rfl, rfl, ?_⟩
  intro h
  simp [specTargetPath, destPathPrefix, h]

/-- C4 (witness): the amended claim applied at a root-path destination. -/
theorem forward_target_amended_witness :
    (handleRequestOptions ProxyServer.new
      { protocol := "http:", hostname := "example.com", port := none, pathname := "/" }
      { url := "/foo?x=1", method := "GET", headers := [] }).path = "/foo?x=1"
  ∧ (handleRequestOptions ProxyServer.new
      { protocol := "http:", hostname := "example.com", port := none, pathname := "/" }
      { url := "/foo?x=1", method := "GET", headers := [] }).hostname = "example.com"
  ∧ (handleRequestOptions ProxyServer.new
      { protocol := "http:", hostname := "example.com", port := none, pathname := "/" }
      { url := "/foo?x=1", method := "GET", headers := [] }).port =
      (none : Option Nat).getD (if ("http:" : String) = "https:" then 443 else 80)
  ∧ specTargetPath
      { protocol := "http:", hostname := "example.com", port := none, pathname := "/" }
      { url := "/foo?x=1", method := "GET", headers := [] } = "/foo?x=1" :=
  ⟨(forward_target_amended ProxyServer.new
      { protocol := "http:", hostname := "example.com", port := none, pathname := "/" }
      { url := "/foo?x=1", method := "GET", headers := [] }).1,
   (forward_target_amended ProxyServer.new
      { protocol := "http:", hostname := "example.com", port := none, pathname := "/" }
      { url := "/foo?x=1", method := "GET", headers := [] }).2.1,
   (forward_target_amended ProxyServer.new
      { protocol := "http:", hostname := "example.com", port := none, pathname := "/" }
      { url := "/foo?x=1", method := "GET", headers := [] }).2.2.1,
   (forward_target_amended ProxyServer.new
      { protocol := "http:", hostname := "example.com", port := none, pathname := "/" }
      { url := "/foo?x=1", method := "GET", headers := [] }).2.2.2 rfl⟩

/-! ## Claim C5: token sanitization end to end -/

/-- C5: if the token command succeeds with raw output "  abc123\n" (two
leading spaces, trailing newline), then a subsequently forwarded request
that attaches authentication carries exactly
Authorization: Bearer abc123 - the sanitization between command output and
header strips all whitespace and newline characters. -/
theorem token_sanitized_header (s : ProxyServer) (cmd : String) (u : Url)
    (req : Request) (ha : s.shouldUseAuthentication = true)
    (hcmd : jsTrim cmd ≠ "") :
    hGet (handleRequestOptions (s.rotateToken (some cmd) (.success "  abc123\n"))
      u req).headers "authorization" = some "Bearer abc123" := by
  have h1 : s.rotateToken (some cmd) (.success "  abc123\n") =
      { s with token := "abc123" } := by
    simp [ProxyServer.rotateToken, ha, hcmd,
      show sanitizeToken "  abc123\n" = "abc123" from rfl]
  rw [h1]
  have hc : attachCond { s with token := "abc123" } = true := by
    show (s.shouldUseAuthentication
      && decide (("abc123" : String) ≠ "") && decide (jsTrim "abc123" ≠ "")) = true
    rw [ha]
    decide
  exact (hGet_authorization_attach _ u req hc).trans rfl

/-- C5 (witness): the sanitized header at a concrete authenticated state. -/
theorem token_sanitized_header_witness :
    hGet (handleRequestOptions
      (ProxyServer.rotateToken
        { server := none, proxy := false, token := "", tokenRotationInterval := false,
          shouldUseAuthentication := true }
        (some "getTok") (.success "  abc123\n"))
      { protocol := "http:", hostname := "example.com", port := none, pathname := "/" }
      { url := "/", method := "GET", headers := [] }).headers "authorization"
      = some "Bearer abc123" :=
  token_sanitized_header _ "getTok" _ _ rfl (by decide)

/-! ## Claim C6: blank token command disables authentication for the run -/

/-- C6: if the token command is blank after trimming at start, then for
every request forwarded during that run - whatever rotations the timer fires
with whatever live configuration values and exec outcomes - the outbound
headers are exactly the inbound headers minus host, connection and
proxy-connection; in particular no Authorization header is attached (a
client-supplied one passes through unchanged), regardless of the rotation
interval. -/
theorem empty_command_no_auth_header (s : ProxyServer) (wc : WorkspaceConfig)
    (e : ExecResult) (steps : List (Option String × ExecResult)) (u : Url)
    (req : Request) (hsrv : s.server = none)
    (hcmd : jsTrim (wc.tokenCommand.getD "") = "") :
    (handleRequestOptions (runRotations (s.start wc e).1 steps) u req).headers
      = hDel (hDel (hDel req.headers "host") "connection") "proxy-connection"
  ∧ hGet (handleRequestOptions (runRotations (s.start wc e).1 steps) u req).headers
      "authorization" = hGet req.headers "authorization" := by
  have hauth : (s.start wc e).1.shouldUseAuthentication = false :=
    start_auth_of_blank_cmd hsrv hcmd
  have hrun : runRotations (s.start wc e).1 steps = (s.start wc e).1 :=
    runRotations_of_not_auth steps hauth
  have hc : attachCond (runRotations (s.start wc e).1 steps) = false := by
    rw [hrun]
    unfold attachCond
    rw [hauth]
    simp
  exact ⟨headers_no_attach _ u req hc, hGet_authorization_no_attach _ u req hc⟩

/-- C6 (witness): a run started with the blank command "   ", followed by a
timer rotation whose live command is non-blank and succeeds, still forwards
a request without attaching any Authorization header. -/
theorem empty_command_no_auth_header_witness :
    (handleRequestOptions (runRotations (ProxyServer.start ProxyServer.new
        { destination := some "http://example.com", tokenCommand := some "   ",
          proxyPort := some 8080, tokenRotationMinutes := some 60 } .failure).1
        [(some "getTok", .success "T1")])
      { protocol := "http:", hostname := "example.com", port := none, pathname := "/" }
      { url := "/", method := "GET",
        headers := [("host", "h"), ("authorization", "Basic x")] }).headers
      = hDel (hDel (hDel [("host", "h"), ("authorization", "Basic x")] "host")
          "connection") "proxy-connection"
  ∧ hGet (handleRequestOptions (runRotations (ProxyServer.start ProxyServer.new
        { destination := some "http://example.com", tokenCommand := some "   ",
          proxyPort := some 8080, tokenRotationMinutes := some 60 } .failure).1
        [(some "getTok", .success "T1")])
      { protocol := "http:", hostname := "example.com", port := none, pathname := "/" }
      { url := "/", method := "GET",
        headers := [("host", "h"), ("authorization", "Basic x")] }).headers
      "authorization"
      = hGet [("host", "h"), ("authorization", "Basic x")] "authorization" :=
  empty_command_no_auth_header _ _ _ _ _ _ rfl (by decide)

/-! ## Claim C7: redirect passthrough -/

/-- C8: start() while running returns failure and leaves the state (hence
the single bound listener) unchanged; stop() while not running returns
failure without throwing and changes nothing; for every configuration with
a non-empty destination, start() from a stopped state succeeds and
isRunning() is true immediately afterwards; stop() from a running state
succeeds and isRunning() is false immediately afterwards - so isRunning()
is true exactly between a successful start and the next stop. -/
theorem lifecycle_state_machine :
    (∀ (s : ProxyServer) (wc : WorkspaceConfig) (e : ExecResult),
        s.isRunning = true → s.start wc e = (s, false))
  ∧ (∀ s : ProxyServer, s.isRunning = false → s.stop = (s, false))
  ∧ (∀ (s : ProxyServer) (wc : WorkspaceConfig) (e : ExecResult) (d : String),
        s.server = none → wc.destination = some d → d ≠ "" →
        (s.start wc e).2 = true ∧ (s.start wc e).1.isRunning = true)
  ∧ (∀ s : ProxyServer, s.isRunning = true →
        s.stop.2 = true ∧ s.stop.1.isRunning = false) := by
  refine ⟨?_, ?_, ?_, ?_⟩
  · intro s wc e h
    exact start_of_running wc e h
  · intro s h
    exact stop_of_stopped h
  · intro s wc e d h hd hne
    obtain ⟨h2, h1⟩ := start_success (e := e) h hd hne
    refine ⟨h2, ?_⟩
    simp [ProxyServer.isRunning, h1]
  · intro s h
    rw [stop_of_running h]
    exact ⟨rfl, rfl⟩

/-- C8 (witness): the four state-machine facts applied at concrete states:
a running server refuses a second start unchanged, a fresh server refuses
stop, a fresh server with destination http://example.com starts and runs,
and a running server stops and stops running. -/
theorem lifecycle_state_machine_witness :
    ProxyServer.start
      { server := some { destination := "http://example.com", proxyPort := 8080,
                         rotationMinutes := 60 },
        proxy := false, token := "", tokenRotationInterval := false,
        shouldUseAuthentication := false }
      { destination := some "http://example.com", tokenCommand := none,
        proxyPort := some 8080, tokenRotationMinutes := some 60 } .failure =
      ({ server := some { destination := "http://example.com", proxyPort := 8080,
                          rotationMinutes := 60 },
         proxy := false, token := "", tokenRotationInterval := false,
         shouldUseAuthentication := false }, false)
  ∧ ProxyServer.stop ProxyServer.new = (ProxyServer.new, false)
  ∧ ((ProxyServer.start ProxyServer.new
        { destination := some "http://example.com", tokenCommand := none,
          proxyPort := some 8080, tokenRotationMinutes := some 60 } .failure).2 = true
    ∧ (ProxyServer.start ProxyServer.new
        { destination := some "http://example.com", tokenCommand := none,
          proxyPort := some 8080, tokenRotationMinutes := some 60 } .failure).1.isRunning
        = true)
  ∧ ((ProxyServer.stop
      { server := some { destination := "http://example.com", proxyPort := 8080,
                         rotationMinutes := 60 },
        proxy := false, token := "", tokenRotationInterval := false,
        shouldUseAuthentication := false }).2 = true
    ∧ (ProxyServer.stop
      { server := some { destination := "http://example.com", proxyPort := 8080,
                         rotationMinutes := 60 },
        proxy := false, token := "", tokenRotationInterval := false,
        shouldUseAuthentication := false }).1.isRunning = false) :=
  ⟨lifecycle_state_machine.1 _ _ _ rfl,
   lifecycle_state_machine.2.1 _ rfl,
   lifecycle_state_machine.2.2.1 _ _ _ "http://example.com" rfl rfl (by decide),
   lifecycle_state_machine.2.2.2 _ rfl⟩

/-! ## Claim C9: TLS verification disabled -/

/-- C9 (implicit in the code, absent from the spec): every outbound request
options object built by the hand-rolled request handler carries
rejectUnauthorized: false, so upstream HTTPS certificates are never
validated. -/
theorem reject_unauthorized_always_false (s : ProxyServer) (u : Url)
    (req : Request) :
    (handleRequestOptions s u req).rejectUnauthorized = false := rfl

/-! ## Claim C10: Authorization header overwrite or passthrough -/

/-- C10 (implicit): when authentication is enabled and the stored token is
non-empty, a client-supplied Authorization header is overwritten - the
outbound request carries exactly one authorization entry whose value is
Bearer followed by the token; when authentication is disabled or the token
is empty, the client-supplied Authorization value passes through unchanged.
The hypotheses hold on every reachable state: the stored token never
contains whitespace (tokenWsFree is established at construction and
preserved by start, rotateToken and stop), and Node folds inbound duplicate
Authorization headers, so at most one arrives. -/
theorem auth_header_overwrite_or_passthrough (s : ProxyServer) (u : Url)
    (req : Request) (hws : tokenWsFree s = true)
    (hone : hCount req.headers "authorization" ≤ 1) :
    (s.shouldUseAuthentication = true → s.token ≠ "" →
        hGet (handleRequestOptions s u req).headers "authorization"
          = some ("Bearer " ++ s.token)
      ∧ hCount (handleRequestOptions s u req).headers "authorization" = 1)
  ∧ ((s.shouldUseAuthentication = false ∨ s.token = "") →
      hGet (handleRequestOptions s u req).headers "authorization"
        = hGet req.headers "authorization") := by
  have htr : jsTrim s.token = s.token := jsTrim_of_wsFree hws
  have hsan : sanitizeToken s.token = s.token := sanitizeToken_of_wsFree hws
  constructor
  · intro ha hne
    have hc : attachCond s = true := by
      unfold attachCond
      rw [ha, htr]
      simp [hne]
    constructor
    · rw [hGet_authorization_attach s u req hc, hsan]
    · rw [headers_attach s u req hc,
          hCount_hDel_of_ne _ (by decide), hCount_hDel_of_ne _ (by decide),
          hCount_hDel_of_ne _ (by decide), hCount_hSet _ _ (by decide)]
      rcases Nat.lt_or_ge (hCount req.headers "authorization") 1 with hlt | hge
      · simp [Nat.lt_one_iff.mp hlt]
      · simp [Nat.le_antisymm hone hge]
  · intro hor
    have hc : attachCond s = false := by
      unfold attachCond
      rcases hor with h | h
      · rw [h]
        simp
      · rw [h]
        simp
    exact hGet_authorization_no_attach s u req hc

/-- C10 (witness): both halves at concrete states: an authenticated state
with token tok123 overwrites a client Basic credential with exactly one
Bearer entry, and a disabled state passes the client credential through. -/
theorem auth_header_overwrite_or_passthrough_witness :
    (hGet (handleRequestOptions
        { server := none, proxy := false, token := "tok123",
          tokenRotationInterval := false, shouldUseAuthentication := true }
        { protocol := "http:", hostname := "example.com", port := none, pathname := "/" }
        { url := "/", method := "GET",
          headers := [("authorization", "Basic zzz"), ("accept", "*")] }).headers
        "authorization" = some ("Bearer " ++ "tok123")
      ∧ hCount (handleRequestOptions
        { server := none, proxy := false, token := "tok123",
          tokenRotationInterval := false, shouldUseAuthentication := true }
        { protocol := "http:", hostname := "example.com", port := none, pathname := "/" }
        { url := "/", method := "GET",
          headers := [("authorization", "Basic zzz"), ("accept", "*")] }).headers
        "authorization" = 1)
  ∧ hGet (handleRequestOptions
      { server := none, proxy := false, token := "", tokenRotationInterval := false,
        shouldUseAuthentication := false }
      { protocol := "http:", hostname := "example.com", port := none, pathname := "/" }
      { url := "/", method := "GET",
        headers := [("authorization", "Basic zzz"), ("accept", "*")] }).headers
      "authorization"
      = hGet [("authorization", "Basic zzz"), ("accept", "*")] "authorization" :=
  ⟨(auth_header_overwrite_or_passthrough
      { server := none, proxy := false, token := "tok123",
        tokenRotationInterval := false, shouldUseAuthentication := true }
      { protocol := "http:", hostname := "example.com", port := none, pathname := "/" }
      { url := "/", method := "GET",
        headers := [("authorization", "Basic zzz"), ("accept", "*")] }
      (by decide) (by decide)).1 rfl (by decide),
   (auth_header_overwrite_or_passthrough
      { server := none, proxy := false, token := "", tokenRotationInterval := false,
        shouldUseAuthentication := false }
      { protocol := "http:", hostname := "example.com", port := none, pathname := "/" }
      { url := "/", method := "GET",
        headers := [("authorization", "Basic zzz"), ("accept", "*")] }
      (by decide) (by decide)).2 (Or.inl rfl)⟩

end Proxy
